import Mathlib

/-!
Verification of the evaluation subsystem of the `investor_agent` repository.

The development shallowly embeds the scoring logic of
`src/eval/openai_evals_runner.py` (deterministic evaluator),
`src/eval/llm_judge.py` (LLM-as-judge evaluator) and
`src/eval/compare_evaluators.py` (comparator).  Python floats are modelled
by exact rationals, Python strings by Lean strings (the corpus is ASCII),
and Python `in` (substring containment) by contiguous-sublist containment
on the underlying character lists.  All string primitives are implemented
by structural recursion on `List Char` so that concrete instances reduce
inside the kernel.
-/

namespace InvestorAgent

/-- Contiguous-substring test on character lists, mirroring Python
`needle in haystack`.  An empty needle is contained in every haystack. -/
def listContainsSub (hay needle : List Char) : Bool :=
  match hay with
  | [] => needle.isEmpty
  | _ :: t => needle.isPrefixOf hay || listContainsSub t needle

/-- Python `needle in haystack` on strings. -/
def pyContains (hay needle : String) : Bool :=
  listContainsSub hay.toList needle.toList

/-- Python `str.lower()`.  The corpus and all keyword literals are ASCII,
so ASCII lowering coincides with Python lowering here. -/
def pyLower (s : String) : String :=
  ⟨s.toList.map Char.toLower⟩

/-- The whitespace class shared by Python `str.strip()` (no argument) and
the regex class `\s`, restricted to ASCII. -/
def pyIsSpace (c : Char) : Bool :=
  c = ' ' || c = '\t' || c = '\n' || c = '\r' || c = '\x0b' || c = '\x0c'

/-- Python `str.strip()` with no argument. -/
def pyStrip (s : String) : String :=
  ⟨((s.toList.dropWhile pyIsSpace).reverse.dropWhile pyIsSpace).reverse⟩

/-- Splitting a character list on the pipe character, mirroring Python
`str.split("|")` (the only separator the source splits on). -/
def splitPipe : List Char → List (List Char)
  | [] => [[]]
  | c :: t =>
    if c = '|' then [] :: splitPipe t
    else
      match splitPipe t with
      | h :: r => (c :: h) :: r
      | [] => [[c]]

/-- Python `keyword.split("|")` on strings. -/
def pySplitPipe (s : String) : List String :=
  (splitPipe s.toList).map (fun l => (⟨l⟩ : String))

/-! ## Keyword/alternatives grader: `OpenAIEvalsRunner.grade_keyword_inclusion`
(`src/eval/openai_evals_runner.py`, lines 76-121). -/

/-- Result shape of `grade_keyword_inclusion`. -/
structure KeywordResult where
  score : ℚ
  passed : Bool
  found_keywords : List String
  missing_keywords : List String
  grader : String
deriving Repr, DecidableEq

/-- The inner `for alt in alternatives` loop of `grade_keyword_inclusion`:
the first alternative (split on "|") whose stripped, lowered text occurs
in the lowered response, if any. -/
def kwAltFound (response_lower keyword : String) : Option String :=
  (pySplitPipe keyword).find? (fun alt => pyContains response_lower (pyLower (pyStrip alt)))

/-- The `for keyword in required_keywords` loop of `grade_keyword_inclusion`,
accumulating `found_keywords` (the stripped matched alternative) and
`missing_keywords` (the raw keyword item). -/
def kwScan (response_lower : String) (required_keywords : List String) :
    List String × List String :=
  required_keywords.foldl
    (fun acc keyword =>
      match kwAltFound response_lower keyword with
      | some alt => (acc.1 ++ [pyStrip alt], acc.2)
      | none => (acc.1, acc.2 ++ [keyword]))
    ([], [])

/-- Embedding of `OpenAIEvalsRunner.grade_keyword_inclusion`.  `fractional`
is the `partial_credit` flag of the source (default `True` at call sites). -/
def grade_keyword_inclusion (response : String) (required_keywords : List String)
    (fractional : Bool) : KeywordResult :=
  let response_lower := pyLower response
  let scan := kwScan response_lower required_keywords
  let score : ℚ :=
    if fractional then
      if required_keywords.isEmpty then 0
      else (scan.1.length : ℚ) / (required_keywords.length : ℚ)
    else
      if scan.2.isEmpty then 1 else 0
  { score := score
    passed := decide ((7 : ℚ)/10 ≤ score)
    found_keywords := scan.1
    missing_keywords := scan.2
    grader := "keyword_inclusion" }

/-- Spec-side satisfaction predicate for one required item: the response
case-insensitively contains at least one of its `|`-alternatives. -/
def kwSatisfied (response keyword : String) : Bool :=
  (pySplitPipe keyword).any
    (fun alt => pyContains (pyLower response) (pyLower (pyStrip alt)))

/-! ## Citation grader: `OpenAIEvalsRunner.grade_citation_quality`
(`src/eval/openai_evals_runner.py`, lines 123-176). -/

/-- Result shape of `grade_citation_quality`. -/
structure CitationResult where
  score : ℚ
  passed : Bool
  has_citation_format : Bool
  sources_mentioned : List String
  citation_quality : String
  grader : String
deriving Repr, DecidableEq

/-- Match of the regex `Page \d+` (IGNORECASE) at the head of an
already-lowered character list. -/
def matchPageAt : List Char → Bool
  | 'p' :: 'a' :: 'g' :: 'e' :: ' ' :: c :: _ => c.isDigit
  | _ => false

/-- Accepts a (possibly empty) run of digits followed by a closing
parenthesis, the continuation of the regex `\(Page \d+\)` after its first
mandatory digit. -/
def digitsThenParen : List Char → Bool
  | [] => false
  | c :: rest => if c = ')' then true else c.isDigit && digitsThenParen rest

/-- Match of the regex `\(Page \d+\)` (IGNORECASE) at the head of an
already-lowered character list. -/
def matchParenPageAt : List Char → Bool
  | '(' :: 'p' :: 'a' :: 'g' :: 'e' :: ' ' :: c :: rest => c.isDigit && digitsThenParen rest
  | _ => false

/-- Unanchored search: does the pattern head-match at some suffix?  This is
`re.search` for the head-matchers above (every start offset is tried,
including the end of the string). -/
def anyTail (p : List Char → Bool) : List Char → Bool
  | [] => p []
  | c :: t => p (c :: t) || anyTail p t

/-- The `has_citations` test of `grade_citation_quality`: any of the five
`citation_patterns` regexes matches the response, case-insensitively.
Literal patterns are modelled by containment of their lowered text in the
lowered response; `Page \d+` and `\(Page \d+\)` by head-matchers over all
suffixes; the fifth pattern is an alternation of four month-year literals. -/
def citationPatternHit (response : String) : Bool :=
  let rl := pyLower response
  pyContains rl "according to" ||
  pyContains rl "ubs house view" ||
  anyTail matchPageAt rl.toList ||
  anyTail matchParenPageAt rl.toList ||
  (pyContains rl "march 2025" || pyContains rl "june 2024" ||
   pyContains rl "june 2025" || pyContains rl "november 2024")

/-- Alternatives of the capture group in `(March|June|November|April)\s*\d{4}`. -/
def monthNames : List String := ["March", "June", "November", "April"]

/-- Accepts exactly four digits and returns the remaining characters. -/
def fourDigitsThen (l : List Char) : Option (List Char) :=
  match l with
  | a :: b :: c :: d :: rest =>
    if a.isDigit && b.isDigit && c.isDigit && d.isDigit then some rest else none
  | _ => none

/-- Match of `(March|June|November|April)\s*\d{4}` at the head of a character
list (case-sensitive, as in the source, which passes no flag to this
`re.findall`).  Returns the captured month name and the rest after the match. -/
def monthMatchAt (l : List Char) : Option (String × List Char) :=
  monthNames.findSome? (fun m =>
    if m.toList.isPrefixOf l then
      match fourDigitsThen ((l.drop m.toList.length).dropWhile pyIsSpace) with
      | some rest => some (m, rest)
      | none => none
    else none)

/-- The `re.findall` scan for `(March|June|November|April)\s*\d{4}`: scan left
to right, on a match emit the capture and continue after the matched span
(non-overlapping), else advance one character.  Fuel is the list length,
which bounds the number of steps since every step consumes at least one
character. -/
def findMonthYear : Nat → List Char → List String
  | _, [] => []
  | 0, _ :: _ => []
  | fuel + 1, c :: t =>
    match monthMatchAt (c :: t) with
    | some (cap, rest) => cap :: findMonthYear fuel rest
    | none => findMonthYear fuel t

/-- `key_parts` of `grade_citation_quality`: the month-name captures that
`re.findall(r"(March|June|November|April)\s*\d{4}", source)` yields. -/
def keyParts (source : String) : List String :=
  findMonthYear source.toList.length source.toList

/-- The `sources_mentioned` loop of `grade_citation_quality`: a source is
kept when some captured month part, lowered, occurs in the lowered
response.  (The source appends the source name once and breaks out of the
inner loop at the first such part, so the result is exactly this filter.) -/
def sourcesMentioned (response : String) (expected_sources : List String) : List String :=
  expected_sources.filter (fun source =>
    (keyParts source).any (fun part => pyContains (pyLower response) (pyLower part)))

/-- Embedding of `OpenAIEvalsRunner.grade_citation_quality`. -/
def grade_citation_quality (response : String) (expected_sources : List String) :
    CitationResult :=
  let has_citations := citationPatternHit response
  let mentioned := sourcesMentioned response expected_sources
  let sq : ℚ × String :=
    if has_citations && !mentioned.isEmpty then (1, "excellent")
    else if has_citations then (7/10, "good")
    else if !mentioned.isEmpty then (1/2, "partial")
    else (0, "none")
  { score := sq.1
    passed := decide ((1 : ℚ)/2 ≤ sq.1)
    has_citation_format := has_citations
    sources_mentioned := mentioned
    citation_quality := sq.2
    grader := "citation_quality" }

/-! ## Compliance grader: `OpenAIEvalsRunner.grade_compliance`
(`src/eval/openai_evals_runner.py`, lines 178-220). -/

/-- The fixed `compliance_keywords` list of `grade_compliance`. -/
def complianceKeywords : List String :=
  ["investment advice", "financial advisor", "licensed advisor", "consult",
   "personalized advice", "not covered", "not found", "not available",
   "cannot", "unable to"]

/-- Result shape of `grade_compliance`. -/
structure ComplianceResult where
  score : ℚ
  passed : Bool
  compliance_indicators : List String
  grader : String
deriving Repr, DecidableEq

/-- Embedding of `OpenAIEvalsRunner.grade_compliance`. -/
def grade_compliance (response question_category : String) : ComplianceResult :=
  let response_lower := pyLower response
  let compliance_found := complianceKeywords.filter (fun kw => pyContains response_lower kw)
  let score : ℚ :=
    if question_category = "comparative" || question_category = "edge_cases" then
      if complianceKeywords.any (fun kw => pyContains response_lower kw) then 1 else 1/2
    else
      if !compliance_found.isEmpty then 1 else 4/5
  { score := score
    passed := decide ((7 : ℚ)/10 ≤ score)
    compliance_indicators := compliance_found
    grader := "compliance" }

/-- Spec-side predicate: some fixed compliance phrase occurs
case-insensitively in the response. -/
def compliancePhrasePresent (response : String) : Bool :=
  complianceKeywords.any (fun kw => pyContains (pyLower response) (pyLower kw))

/-! ## Per-test-case evaluation: `OpenAIEvalsRunner.evaluate_response`
(`src/eval/openai_evals_runner.py`, lines 222-290). -/

/-- The slice of a grader result that `evaluate_response` and
`_calculate_summary` consume: `score`, `passed` and the `grader` marker. -/
structure GradeOut where
  score : ℚ
  passed : Bool
  grader : String
deriving Repr, DecidableEq

/-- Projection of a keyword grading onto the shared slice. -/
def KeywordResult.toOut (r : KeywordResult) : GradeOut :=
  ⟨r.score, r.passed, r.grader⟩

/-- Projection of a citation grading onto the shared slice. -/
def CitationResult.toOut (r : CitationResult) : GradeOut :=
  ⟨r.score, r.passed, r.grader⟩

/-- Projection of a compliance grading onto the shared slice. -/
def ComplianceResult.toOut (r : ComplianceResult) : GradeOut :=
  ⟨r.score, r.passed, r.grader⟩

/-- Per-test-case record built by `evaluate_response` (the fields of the
Python `results` dict that carry scoring content). -/
structure EvalRecord where
  question_id : String
  question : String
  category : String
  timestamp : String
  keyword_check : GradeOut
  citation_check : GradeOut
  compliance_check : GradeOut
  overall_score : ℚ
  passed : Bool
deriving Repr, DecidableEq

/-- Embedding of `OpenAIEvalsRunner.evaluate_response`.  `must_include` is
`evaluation_criteria.get("must_include", [])`, `should_cite` is
`evaluation_criteria.get("should_cite", True)`, and `timestamp` is the
`datetime.now().isoformat()` clock reading, passed explicitly. -/
def evaluate_response (question_id question response : String)
    (must_include : List String) (should_cite : Bool) (source_docs : List String)
    (category timestamp : String) : EvalRecord :=
  let keyword_check : GradeOut :=
    if !must_include.isEmpty then (grade_keyword_inclusion response must_include true).toOut
    else ⟨1, true, "skipped"⟩
  let citation_check : GradeOut :=
    if should_cite && !source_docs.isEmpty then (grade_citation_quality response source_docs).toOut
    else ⟨1, true, "skipped"⟩
  let compliance_check : GradeOut := (grade_compliance response category).toOut
  let overall_score : ℚ :=
    keyword_check.score * (1/2) + citation_check.score * (3/10) + compliance_check.score * (1/5)
  { question_id := question_id
    question := question
    category := category
    timestamp := timestamp
    keyword_check := keyword_check
    citation_check := citation_check
    compliance_check := compliance_check
    overall_score := overall_score
    passed := decide ((7 : ℚ)/10 ≤ overall_score) }

/-- `evaluate_response` with the three criteria evaluated, and their
weighted contributions summed, in the reverse order (compliance, then
citation, then keyword).  Used to state order-invariance of the overall
score. -/
def evaluate_response_rev (question_id question response : String)
    (must_include : List String) (should_cite : Bool) (source_docs : List String)
    (category timestamp : String) : EvalRecord :=
  let compliance_check : GradeOut := (grade_compliance response category).toOut
  let citation_check : GradeOut :=
    if should_cite && !source_docs.isEmpty then (grade_citation_quality response source_docs).toOut
    else ⟨1, true, "skipped"⟩
  let keyword_check : GradeOut :=
    if !must_include.isEmpty then (grade_keyword_inclusion response must_include true).toOut
    else ⟨1, true, "skipped"⟩
  let overall_score : ℚ :=
    compliance_check.score * (1/5) + citation_check.score * (3/10) + keyword_check.score * (1/2)
  { question_id := question_id
    question := question
    category := category
    timestamp := timestamp
    keyword_check := keyword_check
    citation_check := citation_check
    compliance_check := compliance_check
    overall_score := overall_score
    passed := decide ((7 : ℚ)/10 ≤ overall_score) }

/-- Every field of an `EvalRecord` except the `timestamp` metadata. -/
def EvalRecord.scoringView (r : EvalRecord) :
    String × String × String × GradeOut × GradeOut × GradeOut × ℚ × Bool :=
  (r.question_id, r.question, r.category, r.keyword_check, r.citation_check,
   r.compliance_check, r.overall_score, r.passed)

/-! ## Deterministic batch summary: `OpenAIEvalsRunner._calculate_summary`
(`src/eval/openai_evals_runner.py`, lines 365-411). -/

/-- Python `sum(scores)/len(scores) if scores else 0`. -/
def pyAvg (scores : List ℚ) : ℚ :=
  if scores.isEmpty then 0 else scores.sum / (scores.length : ℚ)

/-- Per-category statistics of the deterministic summary. -/
structure CatStat where
  count : Nat
  passCount : Nat
  scores : List ℚ
  avg_score : ℚ
deriving Repr, DecidableEq

/-- Category keys in first-appearance order (the insertion order of the
Python `category_stats` dict). -/
def catKeys (evaluations : List EvalRecord) : List String :=
  evaluations.foldl
    (fun acc e => if acc.contains e.category then acc else acc ++ [e.category]) []

/-- The statistics the `category_stats` loop accumulates for one category. -/
def catStatFor (evaluations : List EvalRecord) (cat : String) : CatStat :=
  let recs := evaluations.filter (fun e => e.category = cat)
  let scores := recs.map (fun e => e.overall_score)
  { count := recs.length
    passCount := (recs.filter (fun e => e.passed)).length
    scores := scores
    avg_score := pyAvg scores }

/-- Summary shape of the deterministic evaluator. -/
structure EvalSummary where
  overall_average : ℚ
  pass_rate : ℚ
  avg_keyword_score : ℚ
  avg_citation_score : ℚ
  avg_compliance_score : ℚ
  total_evaluated : Nat
  category_breakdown : List (String × CatStat)
deriving Repr, DecidableEq

/-- Embedding of `OpenAIEvalsRunner._calculate_summary`.  The empty batch
returns `none` (the Python function returns the empty dict `{}`).  Every
record carries all three checks (as `evaluate_response` guarantees), so the
`"keyword_check" in e` membership guards of the comprehensions are always
true and only the `grader != "skipped"` filters remain. -/
def calculate_summary (evaluations : List EvalRecord) : Option EvalSummary :=
  if evaluations.isEmpty then none
  else some
    { overall_average := pyAvg (evaluations.map (fun e => e.overall_score))
      pass_rate :=
        ((evaluations.filter (fun e => e.passed)).length : ℚ) / (evaluations.length : ℚ)
      avg_keyword_score :=
        pyAvg ((evaluations.filter (fun e => e.keyword_check.grader ≠ "skipped")).map
          (fun e => e.keyword_check.score))
      avg_citation_score :=
        pyAvg ((evaluations.filter (fun e => e.citation_check.grader ≠ "skipped")).map
          (fun e => e.citation_check.score))
      avg_compliance_score := pyAvg (evaluations.map (fun e => e.compliance_check.score))
      total_evaluated := evaluations.length
      category_breakdown := (catKeys evaluations).map (fun c => (c, catStatFor evaluations c)) }

/-! ## LLM-as-judge evaluator: `LLMJudge.evaluate_response` and
`LLMJudge._calculate_summary` (`src/eval/llm_judge.py`, lines 127-301). -/

/-- Payload parsed from a successful judgment-service call: the JSON object
the judge returned.  `criteria` maps criterion names to their scores where
present; `overall_score` is the `"overall_score"` key if present; `pass` is
`e.get("pass", False)` folded to a boolean. -/
structure JudgeEval where
  criteria : List (String × ℚ)
  overall_score : Option ℚ
  pass : Bool
deriving Repr, DecidableEq

/-- Per-test-case record of the judgment evaluator.  The error path of the
source produces a dict with only `error`, `question`, `overall_score` and
`pass` keys; absent keys are modelled with `Option`/defaults. -/
structure JudgeRecord where
  error : Option String
  question : String
  category : Option String
  overall_score : Option ℚ
  pass : Bool
  criteria : List (String × ℚ)
deriving Repr, DecidableEq

/-- Embedding of `LLMJudge.evaluate_response`.  The external service call
and JSON parse are modelled by `serviceResult`: `Except.ok` is a parsed
payload, `Except.error` is any exception (failed call or malformed data),
which the source converts into the explicit error record with
`overall_score=0` and `pass=False`. -/
def judge_evaluate_response (question category : String)
    (serviceResult : Except String JudgeEval) : JudgeRecord :=
  match serviceResult with
  | Except.ok ev =>
    { error := none
      question := question
      category := some category
      overall_score := ev.overall_score
      pass := ev.pass
      criteria := ev.criteria }
  | Except.error msg =>
    { error := some msg
      question := question
      category := none
      overall_score := some 0
      pass := false
      criteria := [] }

/-- The five rubric criteria of `LLMJudge.evaluation_criteria`. -/
def judgeCriteria : List String :=
  ["factual_accuracy", "source_attribution", "completeness",
   "hallucination_detection", "compliance"]

/-- Average/min/max of one criterion across the valid batch. -/
structure CriterionStat where
  average : ℚ
  minScore : ℚ
  maxScore : ℚ
deriving Repr, DecidableEq

/-- Per-category statistics of the judge summary. -/
structure JudgeCatStat where
  count : Nat
  passCount : Nat
  avg_score : ℚ
deriving Repr, DecidableEq

/-- Summary shape of the judgment evaluator. -/
structure JudgeSummary where
  criteria_scores : List (String × CriterionStat)
  overall_average : ℚ
  pass_rate : ℚ
  total_evaluated : Nat
  total_failed : Nat
  category_breakdown : List (String × JudgeCatStat)
deriving Repr, DecidableEq

/-- The three shapes `LLMJudge._calculate_summary` can return: the empty
dict for an empty batch, the `{"error": "All evaluations failed"}` dict
when no record is valid, or the statistics dict. -/
inductive JudgeSummaryOut where
  | empty : JudgeSummaryOut
  | allFailed : JudgeSummaryOut
  | stats : JudgeSummary → JudgeSummaryOut
deriving Repr, DecidableEq

/-- Valid records: those without an `error` key. -/
def judgeValid (evaluations : List JudgeRecord) : List JudgeRecord :=
  evaluations.filter (fun e => e.error.isNone)

/-- Judge category keys (category defaulting to "unknown") over the valid
records, in first-appearance order. -/
def judgeCatKeys (valid : List JudgeRecord) : List String :=
  valid.foldl
    (fun acc e =>
      if acc.contains (e.category.getD "unknown") then acc
      else acc ++ [e.category.getD "unknown"]) []

/-- The statistics the judge `category_stats` loop accumulates for one
category over the valid records. -/
def judgeCatStatFor (valid : List JudgeRecord) (cat : String) : JudgeCatStat :=
  let recs := valid.filter (fun e => e.category.getD "unknown" = cat)
  let scores := recs.filterMap (fun e => e.overall_score)
  { count := recs.length
    passCount := (recs.filter (fun e => e.pass)).length
    avg_score := if scores.isEmpty then 0 else scores.sum / (scores.length : ℚ) }

/-- Average/min/max for one criterion name over the valid records, `none`
when no valid record carries that criterion score. -/
def judgeCriterionStatFor (valid : List JudgeRecord) (criterion : String) :
    Option CriterionStat :=
  match valid.filterMap (fun e => e.criteria.lookup criterion) with
  | [] => none
  | s :: rest =>
    some { average := (s :: rest).sum / ((s :: rest).length : ℚ)
           minScore := rest.foldl min s
           maxScore := rest.foldl max s }

/-- Embedding of `LLMJudge._calculate_summary`. -/
def judge_calculate_summary (evaluations : List JudgeRecord) : JudgeSummaryOut :=
  if evaluations.isEmpty then JudgeSummaryOut.empty
  else
    let valid := judgeValid evaluations
    if valid.isEmpty then JudgeSummaryOut.allFailed
    else
      JudgeSummaryOut.stats
        { criteria_scores :=
            judgeCriteria.filterMap (fun c =>
              (judgeCriterionStatFor valid c).map (fun st => (c, st)))
          overall_average := pyAvg (valid.filterMap (fun e => e.overall_score))
          pass_rate := ((valid.filter (fun e => e.pass)).length : ℚ) / (valid.length : ℚ)
          total_evaluated := valid.length
          total_failed := evaluations.length - valid.length
          category_breakdown :=
            (judgeCatKeys valid).map (fun c => (c, judgeCatStatFor valid c)) }

/-! ## Comparator: `EvaluatorComparison` (`src/eval/compare_evaluators.py`). -/

/-- Result shape of `compare_overall_scores`. -/
structure OverallComparison where
  llm_judge_score : ℚ
  openai_evals_score : ℚ
  difference : ℚ
  winner : String
deriving Repr, DecidableEq

/-- Embedding of `EvaluatorComparison.compare_overall_scores`, a function of
the two summaries' `overall_average` fields.  (Note: the source subtracts
the raw averages; it performs no division by 5 in this method.) -/
def compare_overall_scores (llm_avg evals_avg : ℚ) : OverallComparison :=
  { llm_judge_score := llm_avg
    openai_evals_score := evals_avg
    difference := |llm_avg - evals_avg|
    winner := if llm_avg > evals_avg then "llm-judge" else "openai-evals" }

/-- One row of the `compare_by_category` table. -/
structure CategoryComparison where
  llm_judge : ℚ
  openai_evals : ℚ
  better_evaluator : String
deriving Repr, DecidableEq

/-- The per-category body of `EvaluatorComparison.compare_by_category`:
normalization `llm_score / 5.0 if llm_score else 0` and the strict
greater-than winner decision. -/
def compare_category_entry (llm_score evals_score : ℚ) : CategoryComparison :=
  let llm_normalized : ℚ := if llm_score ≠ 0 then llm_score / 5 else 0
  { llm_judge := llm_normalized
    openai_evals := evals_score
    better_evaluator :=
      if llm_normalized > evals_score then "llm-judge" else "openai-evals" }

/-- Key union with first-appearance deduplication.  (The source iterates
over `set(list(a) + list(b))`, whose order is unspecified; the per-key
entries below do not depend on that order.) -/
def keyUnion (xs : List String) : List String :=
  xs.foldl (fun acc k => if acc.contains k then acc else acc ++ [k]) []

/-- Embedding of `EvaluatorComparison.compare_by_category` over the two
`category_breakdown` maps, read as association lists from category to
`avg_score` (missing keys default to 0, as `.get(category, {}).get("avg_score", 0)`). -/
def compare_by_category (llm_categories evals_categories : List (String × ℚ)) :
    List (String × CategoryComparison) :=
  (keyUnion (llm_categories.map Prod.fst ++ evals_categories.map Prod.fst)).map
    (fun category =>
      (category,
        compare_category_entry ((llm_categories.lookup category).getD 0)
          ((evals_categories.lookup category).getD 0)))

/-! ## Helper lemmas about the keyword grader -/

/-- The accumulating keyword loop: the `found_keywords` side grows by the
count of items with a matching alternative, the `missing_keywords` side by
the count of items without one. -/
theorem kwScan_foldl_lengths (response_lower : String) (ks : List String)
    (f m : List String) :
    ((ks.foldl
      (fun acc keyword =>
        match kwAltFound response_lower keyword with
        | some alt => (acc.1 ++ [pyStrip alt], acc.2)
        | none => (acc.1, acc.2 ++ [keyword]))
      (f, m)).1.length
        = f.length + ks.countP (fun k => (kwAltFound response_lower k).isSome))
    ∧ ((ks.foldl
      (fun acc keyword =>
        match kwAltFound response_lower keyword with
        | some alt => (acc.1 ++ [pyStrip alt], acc.2)
        | none => (acc.1, acc.2 ++ [keyword]))
      (f, m)).2.length
        = m.length + ks.countP (fun k => !(kwAltFound response_lower k).isSome)) := by
  induction ks generalizing f m with
  | nil => simp
  | cons k ks ih =>
    rcases h : kwAltFound response_lower k with _ | alt
    · have := ih f (m ++ [k])
      simp [List.foldl_cons, h, List.countP_cons, this.1, this.2]
      omega
    · have := ih (f ++ [pyStrip alt]) m
      simp [List.foldl_cons, h, List.countP_cons, this.1, this.2]
      omega

/-- An item has a found alternative exactly when it is satisfied in the
sense of the specification. -/
theorem kwAltFound_isSome_eq (response keyword : String) :
    (kwAltFound (pyLower response) keyword).isSome = kwSatisfied response keyword := by
  rw [Bool.eq_iff_iff]
  simp [kwAltFound, kwSatisfied, List.find?_isSome, List.any_eq_true]

/-- Length of the `found_keywords` list produced by the scan. -/
theorem kwScan_fst_length (response : String) (ks : List String) :
    (kwScan (pyLower response) ks).1.length = ks.countP (kwSatisfied response) := by
  have h := (kwScan_foldl_lengths (pyLower response) ks [] []).1
  simp only [kwScan, h, List.length_nil, Nat.zero_add]
  exact List.countP_congr (fun k _ => by rw [kwAltFound_isSome_eq])

/-- Length of the `missing_keywords` list produced by the scan. -/
theorem kwScan_snd_length (response : String) (ks : List String) :
    (kwScan (pyLower response) ks).2.length = ks.countP (fun k => !kwSatisfied response k) := by
  have h := (kwScan_foldl_lengths (pyLower response) ks [] []).2
  simp only [kwScan, h, List.length_nil, Nat.zero_add]
  exact List.countP_congr (fun k _ => by rw [kwAltFound_isSome_eq])

/-- Partial-credit score formula of the keyword grader on a non-empty
required list. -/
theorem kw_score_formula (response : String) (ks : List String) (h : ks ≠ []) :
    (grade_keyword_inclusion response ks true).score
      = (ks.countP (kwSatisfied response) : ℚ) / (ks.length : ℚ) := by
  have he : ks.isEmpty = false := by simpa [List.isEmpty_iff] using h
  simp only [grade_keyword_inclusion, he, if_true, if_false, Bool.false_eq_true,
    kwScan_fst_length]

/-- Binary score formula of the keyword grader with partial credit
disabled. -/
theorem kw_binary_formula (response : String) (ks : List String) :
    (grade_keyword_inclusion response ks false).score
      = (if ks.all (kwSatisfied response) then 1 else 0) := by
  have hm : (kwScan (pyLower response) ks).2.isEmpty = ks.all (kwSatisfied response) := by
    rw [Bool.eq_iff_iff]
    simp only [List.isEmpty_iff, List.length_eq_zero.symm, kwScan_snd_length,
      List.countP_eq_zero, List.all_eq_true]
    constructor
    · intro h a ha
      have := h a ha
      simpa using this
    · intro h a ha
      simpa using h a ha
  simp only [grade_keyword_inclusion, if_false, Bool.false_eq_true, hm]

/-- The keyword grader's score always lies in `[0, 1]`. -/
theorem kw_score_bounds (response : String) (ks : List String) (b : Bool) :
    0 ≤ (grade_keyword_inclusion response ks b).score
    ∧ (grade_keyword_inclusion response ks b).score ≤ 1 := by
  rcases b with _ | _
  · rw [kw_binary_formula]
    split <;> norm_num
  · rcases eq_or_ne ks [] with rfl | h
    · simp [grade_keyword_inclusion]
    · rw [kw_score_formula response ks h]
      have hlen : 0 < (ks.length : ℚ) := by
        have : 0 < ks.length := List.length_pos.mpr h
        exact_mod_cast this
      constructor
      · positivity
      · rw [div_le_one hlen]
        have : ks.countP (kwSatisfied response) ≤ ks.length := List.countP_le_length _
        exact_mod_cast this

/-- The keyword grader's pass flag is the decision of the 0.7 threshold. -/
theorem kw_passed_iff (response : String) (ks : List String) (b : Bool) :
    (grade_keyword_inclusion response ks b).passed = true
      ↔ (7 : ℚ)/10 ≤ (grade_keyword_inclusion response ks b).score := by
  exact decide_eq_true_iff

/-- C3: on a non-empty required list the keyword grader with partial credit
scores (number of satisfied items)/(number of items), the binary variant
scores 1 exactly when every item is satisfied, the pass flag is the 0.7
threshold on the score, and the response "S&P 500 target 6600" against
required ["S&P 500|SPX", "6,600|6600"] scores 1. -/
theorem grade_keyword_inclusion_spec (response : String) (ks : List String)
    (h : ks ≠ []) :
    (grade_keyword_inclusion response ks true).score
        = (ks.countP (kwSatisfied response) : ℚ) / (ks.length : ℚ)
    ∧ ((grade_keyword_inclusion response ks false).score
        = if ks.all (kwSatisfied response) then 1 else 0)
    ∧ ((grade_keyword_inclusion response ks true).passed = true
        ↔ (7 : ℚ)/10 ≤ (grade_keyword_inclusion response ks true).score)
    ∧ (grade_keyword_inclusion "S&P 500 target 6600"
        ["S&P 500|SPX", "6,600|6600"] true).score = 1 := by
  refine ⟨kw_score_formula response ks h, kw_binary_formula response ks,
    kw_passed_iff response ks true, ?_⟩
  rw [kw_score_formula "S&P 500 target 6600" ["S&P 500|SPX", "6,600|6600"] (by simp)]
  have hc : (["S&P 500|SPX", "6,600|6600"] : List String).countP
      (kwSatisfied "S&P 500 target 6600") = 2 := by decide
  rw [hc]
  norm_num

/-- Witness for C3 at the spec's own example input. -/
theorem grade_keyword_inclusion_spec_witness :
    (["S&P 500|SPX", "6,600|6600"] : List String) ≠ []
    ∧ (grade_keyword_inclusion "S&P 500 target 6600"
        ["S&P 500|SPX", "6,600|6600"] true).score
      = ((["S&P 500|SPX", "6,600|6600"] : List String).countP
          (kwSatisfied "S&P 500 target 6600") : ℚ)
        / ((["S&P 500|SPX", "6,600|6600"] : List String).length : ℚ) :=
  ⟨by simp,
   (grade_keyword_inclusion_spec "S&P 500 target 6600"
     ["S&P 500|SPX", "6,600|6600"] (by simp)).1⟩

/-- C8 counterexample: invoking the keyword grader directly with an empty
required list (partial credit enabled, the call-site default) yields score
0, passed false and the ordinary "keyword_inclusion" marker — not the
claimed score 1.0, passed true, "skipped" marker. -/
theorem grade_keyword_inclusion_empty_counterexample :
    (grade_keyword_inclusion "The target is 6,600" [] true).score = 0
    ∧ (grade_keyword_inclusion "The target is 6,600" [] true).passed = false
    ∧ (grade_keyword_inclusion "The target is 6,600" [] true).grader = "keyword_inclusion"
    ∧ (grade_keyword_inclusion "The target is 6,600" [] true).score ≠ 1
    ∧ (grade_keyword_inclusion "The target is 6,600" [] true).grader ≠ "skipped" := by
  refine ⟨rfl, ?_, rfl, by norm_num [grade_keyword_inclusion, kwScan], by decide⟩
  rw [show (grade_keyword_inclusion "The target is 6,600" [] true).passed
      = decide ((7 : ℚ)/10 ≤ 0) from rfl]
  norm_num

/-- C8 (amended): the per-test-case evaluation skips the keyword grading
step on an empty `must_include` list, recording score 1.0, passed true and
the "skipped" marker; the grader invoked directly with an empty required
list instead returns score 0 and passed false under partial credit (and
score 1 with its ordinary marker when partial credit is disabled) — never
the "skipped" marker. -/
theorem empty_keywords_skip_behavior (question_id question response : String)
    (should_cite : Bool) (source_docs : List String) (category timestamp : String) :
    (evaluate_response question_id question response [] should_cite source_docs
        category timestamp).keyword_check = ⟨1, true, "skipped"⟩
    ∧ (∀ r : String, grade_keyword_inclusion r [] true
        = { score := 0, passed := false, found_keywords := [],
            missing_keywords := [], grader := "keyword_inclusion" })
    ∧ (∀ r : String, grade_keyword_inclusion r [] false
        = { score := 1, passed := true, found_keywords := [],
            missing_keywords := [], grader := "keyword_inclusion" }) := by
  refine ⟨rfl, fun r => ?_, fun r => ?_⟩
  · simp only [grade_keyword_inclusion, kwScan, List.foldl_nil, List.isEmpty_nil,
      if_true, KeywordResult.mk.injEq]
    norm_num
  · simp only [grade_keyword_inclusion, kwScan, List.foldl_nil, List.isEmpty_nil,
      if_true, if_false, Bool.false_eq_true, KeywordResult.mk.injEq]
    norm_num

/-! ## Helper lemmas about the compliance grader -/

/-- Congruence for `List.any` under a pointwise-equal predicate. -/
theorem listAny_congr {α : Type} (p q : α → Bool) (l : List α)
    (h : ∀ a ∈ l, p a = q a) : l.any p = l.any q := by
  induction l with
  | nil => simp
  | cons a t ih =>
    simp only [List.any_cons, h a (by simp)]
    rw [ih (fun x hx => h x (by simp [hx]))]

/-- A filtered list is non-empty exactly when some element satisfies the
predicate. -/
theorem filter_nonempty_eq_any {α : Type} (q : α → Bool) (l : List α) :
    (!(l.filter q).isEmpty) = l.any q := by
  induction l with
  | nil => simp
  | cons a t ih =>
    rcases h : q a with _ | _ <;> simp [List.filter_cons, h, ih]

/-- Every fixed compliance phrase is already lower-case, so the source's
`kw in response_lower` test agrees with the case-insensitive containment
of the specification. -/
theorem compliancePhrase_eq (r : String) :
    compliancePhrasePresent r
      = complianceKeywords.any (fun kw => pyContains (pyLower r) kw) := by
  unfold compliancePhrasePresent
  exact listAny_congr _ _ _ (fun kw hkw => by
    have h : ∀ kw ∈ complianceKeywords, pyLower kw = kw := by decide
    rw [h kw hkw])

/-- C5: for the "comparative" and "edge_cases" categories the compliance
grader scores 1 when some fixed compliance phrase occurs case-insensitively
and 0.5 otherwise; every other category scores 1 or 0.8 on the same test;
passed is the 0.7 threshold; and an "edge_cases" response lacking every
phrase scores 0.5 and fails. -/
theorem grade_compliance_spec (response category : String) :
    ((category = "comparative" ∨ category = "edge_cases") →
      (grade_compliance response category).score
        = if compliancePhrasePresent response then 1 else 1/2)
    ∧ (¬(category = "comparative" ∨ category = "edge_cases") →
      (grade_compliance response category).score
        = if compliancePhrasePresent response then 1 else 4/5)
    ∧ ((grade_compliance response category).passed = true
        ↔ (7 : ℚ)/10 ≤ (grade_compliance response category).score)
    ∧ (grade_compliance "The S&P 500 target is 6,600." "edge_cases").score = 1/2
    ∧ (grade_compliance "The S&P 500 target is 6,600." "edge_cases").passed = false := by
  refine ⟨?_, ?_, decide_eq_true_iff, ?_, ?_⟩
  · intro h
    have hb : (decide (category = "comparative") || decide (category = "edge_cases")) = true := by
      rcases h with h | h <;> simp [h]
    simp only [grade_compliance, hb, if_true, compliancePhrase_eq]
  · intro h
    push_neg at h
    have hb : (decide (category = "comparative") || decide (category = "edge_cases")) = false := by
      simp [h.1, h.2]
    simp only [grade_compliance, hb, Bool.false_eq_true, if_false,
      filter_nonempty_eq_any, compliancePhrase_eq]
  · rfl
  · rw [show (grade_compliance "The S&P 500 target is 6,600." "edge_cases").passed
        = decide ((7 : ℚ)/10 ≤ 1/2) from rfl]
    norm_num

/-- Witness for C5: the implication branches applied at the "edge_cases"
category and at a plain factual category. -/
theorem grade_compliance_spec_witness :
    (grade_compliance "The S&P 500 target is 6,600." "edge_cases").score
        = (if compliancePhrasePresent "The S&P 500 target is 6,600." then 1 else 1/2)
    ∧ (grade_compliance "The S&P 500 target is 6,600." "factual_recall").score
        = (if compliancePhrasePresent "The S&P 500 target is 6,600." then 1 else 4/5) :=
  ⟨(grade_compliance_spec "The S&P 500 target is 6,600." "edge_cases").1 (Or.inr rfl),
   (grade_compliance_spec "The S&P 500 target is 6,600." "factual_recall").2.1
     (by decide)⟩

/-! ## Helper lemmas about the citation grader, and C4 -/

/-- The citation score can only be one of the four policy values. -/
theorem cit_score_cases (response : String) (srcs : List String) :
    (grade_citation_quality response srcs).score = 1
    ∨ (grade_citation_quality response srcs).score = 7/10
    ∨ (grade_citation_quality response srcs).score = 1/2
    ∨ (grade_citation_quality response srcs).score = 0 := by
  unfold grade_citation_quality
  dsimp only
  split
  · exact Or.inl rfl
  · split
    · exact Or.inr (Or.inl rfl)
    · split
      · exact Or.inr (Or.inr (Or.inl rfl))
      · exact Or.inr (Or.inr (Or.inr rfl))

/-- The compliance score can only be one of its three policy values. -/
theorem comp_score_cases (response category : String) :
    (grade_compliance response category).score = 1
    ∨ (grade_compliance response category).score = 1/2
    ∨ (grade_compliance response category).score = 4/5 := by
  unfold grade_compliance
  dsimp only
  split
  · split
    · exact Or.inl rfl
    · exact Or.inr (Or.inl rfl)
  · split
    · exact Or.inl rfl
    · exact Or.inr (Or.inr rfl)

/-- The ordered first-match scoring policy of the citation grader, stated
on its two detector outcomes. -/
theorem cit_policy (response : String) (srcs : List String) :
    (citationPatternHit response = true
        → (grade_citation_quality response srcs).sources_mentioned ≠ []
        → (grade_citation_quality response srcs).score = 1
          ∧ (grade_citation_quality response srcs).citation_quality = "excellent")
    ∧ (citationPatternHit response = true
        → (grade_citation_quality response srcs).sources_mentioned = []
        → (grade_citation_quality response srcs).score = 7/10
          ∧ (grade_citation_quality response srcs).citation_quality = "good")
    ∧ (citationPatternHit response = false
        → (grade_citation_quality response srcs).sources_mentioned ≠ []
        → (grade_citation_quality response srcs).score = 1/2
          ∧ (grade_citation_quality response srcs).citation_quality = "partial")
    ∧ (citationPatternHit response = false
        → (grade_citation_quality response srcs).sources_mentioned = []
        → (grade_citation_quality response srcs).score = 0
          ∧ (grade_citation_quality response srcs).citation_quality = "none")
    ∧ ((grade_citation_quality response srcs).passed = true
        ↔ (1 : ℚ)/2 ≤ (grade_citation_quality response srcs).score) := by
  have hm : (grade_citation_quality response srcs).sources_mentioned
      = sourcesMentioned response srcs := rfl
  refine ⟨?_, ?_, ?_, ?_, decide_eq_true_iff⟩ <;>
    · intro h1 h2
      rw [hm] at h2
      first
      | (have h2e : (sourcesMentioned response srcs).isEmpty = false := by
          simpa [List.isEmpty_iff] using h2
         exact ⟨by simp [grade_citation_quality, h1, h2e], by simp [grade_citation_quality, h1, h2e]⟩)
      | (have h2e : (sourcesMentioned response srcs).isEmpty = true := by
          simpa [List.isEmpty_iff] using h2
         exact ⟨by simp [grade_citation_quality, h1, h2e], by simp [grade_citation_quality, h1, h2e]⟩)

/-- C4: at the spec's own example — response "According to UBS House View
March 2025 (Page 17)" against expected source "UBS_House_View_March_2025.pdf"
— the grader detects the citation pattern but extracts no month-year part
from the underscore-separated file name (the regex `\s*` does not match
`_`), so the source is not counted as mentioned and the result is score 0.7
with quality "good", not the claimed 1.0 with "excellent". -/
theorem grade_citation_quality_underscore_example :
    keyParts "UBS_House_View_March_2025.pdf" = []
    ∧ (grade_citation_quality "According to UBS House View March 2025 (Page 17)"
        ["UBS_House_View_March_2025.pdf"]).has_citation_format = true
    ∧ (grade_citation_quality "According to UBS House View March 2025 (Page 17)"
        ["UBS_House_View_March_2025.pdf"]).sources_mentioned = []
    ∧ (grade_citation_quality "According to UBS House View March 2025 (Page 17)"
        ["UBS_House_View_March_2025.pdf"]).score = 7/10
    ∧ (grade_citation_quality "According to UBS House View March 2025 (Page 17)"
        ["UBS_House_View_March_2025.pdf"]).citation_quality = "good"
    ∧ (grade_citation_quality "According to UBS House View March 2025 (Page 17)"
        ["UBS_House_View_March_2025.pdf"]).passed = true
    ∧ (grade_citation_quality "According to UBS House View March 2025 (Page 17)"
        ["UBS_House_View_March_2025.pdf"]).score ≠ 1
    ∧ (grade_citation_quality "According to UBS House View March 2025 (Page 17)"
        ["UBS_House_View_March_2025.pdf"]).citation_quality ≠ "excellent" := by
  refine ⟨by decide, by decide, by decide, rfl, by decide, ?_, ?_, by decide⟩
  · rw [show (grade_citation_quality "According to UBS House View March 2025 (Page 17)"
        ["UBS_House_View_March_2025.pdf"]).passed = decide ((1 : ℚ)/2 ≤ 7/10) from rfl]
    norm_num
  · rw [show (grade_citation_quality "According to UBS House View March 2025 (Page 17)"
        ["UBS_House_View_March_2025.pdf"]).score = (7 : ℚ)/10 from rfl]
    norm_num

/-! ## Helper lemmas about `evaluate_response`, and C2 -/

/-- The keyword check recorded by `evaluate_response`. -/
theorem eval_keyword_check (question_id question response : String)
    (must_include : List String) (should_cite : Bool) (source_docs : List String)
    (category timestamp : String) :
    (evaluate_response question_id question response must_include should_cite
        source_docs category timestamp).keyword_check
      = (if !must_include.isEmpty then (grade_keyword_inclusion response must_include true).toOut
         else ⟨1, true, "skipped"⟩) := rfl

/-- The citation check recorded by `evaluate_response`. -/
theorem eval_citation_check (question_id question response : String)
    (must_include : List String) (should_cite : Bool) (source_docs : List String)
    (category timestamp : String) :
    (evaluate_response question_id question response must_include should_cite
        source_docs category timestamp).citation_check
      = (if should_cite && !source_docs.isEmpty then (grade_citation_quality response source_docs).toOut
         else ⟨1, true, "skipped"⟩) := rfl

/-- The compliance check recorded by `evaluate_response`. -/
theorem eval_compliance_check (question_id question response : String)
    (must_include : List String) (should_cite : Bool) (source_docs : List String)
    (category timestamp : String) :
    (evaluate_response question_id question response must_include should_cite
        source_docs category timestamp).compliance_check
      = (grade_compliance response category).toOut := rfl

/-- Each check score recorded by `evaluate_response` lies in `[0, 1]`. -/
theorem eval_check_bounds (question_id question response : String)
    (must_include : List String) (should_cite : Bool) (source_docs : List String)
    (category timestamp : String) :
    (0 ≤ (evaluate_response question_id question response must_include should_cite
        source_docs category timestamp).keyword_check.score
      ∧ (evaluate_response question_id question response must_include should_cite
        source_docs category timestamp).keyword_check.score ≤ 1)
    ∧ (0 ≤ (evaluate_response question_id question response must_include should_cite
        source_docs category timestamp).citation_check.score
      ∧ (evaluate_response question_id question response must_include should_cite
        source_docs category timestamp).citation_check.score ≤ 1)
    ∧ (0 ≤ (evaluate_response question_id question response must_include should_cite
        source_docs category timestamp).compliance_check.score
      ∧ (evaluate_response question_id question response must_include should_cite
        source_docs category timestamp).compliance_check.score ≤ 1) := by
  refine ⟨?_, ?_, ?_⟩
  · rw [eval_keyword_check]
    split
    · exact kw_score_bounds response must_include true
    · norm_num
  · rw [eval_citation_check]
    split
    · rcases cit_score_cases response source_docs with h | h | h | h <;>
        · show (0 : ℚ) ≤ (grade_citation_quality response source_docs).score
            ∧ (grade_citation_quality response source_docs).score ≤ 1
          rw [h]; norm_num
    · norm_num
  · rw [eval_compliance_check]
    rcases comp_score_cases response category with h | h | h <;>
      · show (0 : ℚ) ≤ (grade_compliance response category).score
          ∧ (grade_compliance response category).score ≤ 1
        rw [h]; norm_num

/-- C2: the per-test-case overall score is the fixed weighted sum
0.5/0.3/0.2 of the three recorded check scores (a skipped grader holding
score 1 at its full weight), lies in `[0, 1]`, and the pass flag is the
0.7 threshold on it. -/
theorem evaluate_response_weighted_overall (question_id question response : String)
    (must_include : List String) (should_cite : Bool) (source_docs : List String)
    (category timestamp : String) :
    (evaluate_response question_id question response must_include should_cite
        source_docs category timestamp).overall_score
      = (evaluate_response question_id question response must_include should_cite
          source_docs category timestamp).keyword_check.score * (1/2)
        + (evaluate_response question_id question response must_include should_cite
            source_docs category timestamp).citation_check.score * (3/10)
        + (evaluate_response question_id question response must_include should_cite
            source_docs category timestamp).compliance_check.score * (1/5)
    ∧ 0 ≤ (evaluate_response question_id question response must_include should_cite
        source_docs category timestamp).overall_score
    ∧ (evaluate_response question_id question response must_include should_cite
        source_docs category timestamp).overall_score ≤ 1
    ∧ ((evaluate_response question_id question response must_include should_cite
        source_docs category timestamp).passed = true
      ↔ (7 : ℚ)/10 ≤ (evaluate_response question_id question response must_include
          should_cite source_docs category timestamp).overall_score)
    ∧ (must_include.isEmpty = true →
        (evaluate_response question_id question response must_include should_cite
          source_docs category timestamp).keyword_check = ⟨1, true, "skipped"⟩)
    ∧ ((should_cite && !source_docs.isEmpty) = false →
        (evaluate_response question_id question response must_include should_cite
          source_docs category timestamp).citation_check = ⟨1, true, "skipped"⟩) := by
  obtain ⟨⟨hk0, hk1⟩, ⟨hc0, hc1⟩, ⟨hp0, hp1⟩⟩ :=
    eval_check_bounds question_id question response must_include should_cite
      source_docs category timestamp
  refine ⟨rfl, ?_, ?_, decide_eq_true_iff,
    fun h => by rw [eval_keyword_check]; simp [h],
    fun h => by rw [eval_citation_check]; simp [h]⟩
  · rw [show (evaluate_response question_id question response must_include should_cite
        source_docs category timestamp).overall_score
      = (evaluate_response question_id question response must_include should_cite
          source_docs category timestamp).keyword_check.score * (1/2)
        + (evaluate_response question_id question response must_include should_cite
            source_docs category timestamp).citation_check.score * (3/10)
        + (evaluate_response question_id question response must_include should_cite
            source_docs category timestamp).compliance_check.score * (1/5) from rfl]
    nlinarith
  · rw [show (evaluate_response question_id question response must_include should_cite
        source_docs category timestamp).overall_score
      = (evaluate_response question_id question response must_include should_cite
          source_docs category timestamp).keyword_check.score * (1/2)
        + (evaluate_response question_id question response must_include should_cite
            source_docs category timestamp).citation_check.score * (3/10)
        + (evaluate_response question_id question response must_include should_cite
            source_docs category timestamp).compliance_check.score * (1/5) from rfl]
    nlinarith

/-- Witness for C2 at a concrete transcript. -/
theorem evaluate_response_weighted_overall_witness :
    0 ≤ (evaluate_response "q1" "What is the S&P 500 target?" "The target is 6,600."
        ["6,600|6600"] true ["UBS_House_View_March_2025.pdf"] "factual_recall"
        "2025-03-01T00:00:00").overall_score :=
  (evaluate_response_weighted_overall "q1" "What is the S&P 500 target?"
    "The target is 6,600." ["6,600|6600"] true ["UBS_House_View_March_2025.pdf"]
    "factual_recall" "2025-03-01T00:00:00").2.1

/-! ## C6: determinism of the deterministic evaluator -/

/-- C6 (amended): evaluating the three criteria, and summing their weighted
contributions, in the reverse order yields the very same record, and two
evaluations of the same transcript agree on every field except the
`timestamp` metadata. -/
theorem evaluate_response_order_and_timestamp (question_id question response : String)
    (must_include : List String) (should_cite : Bool) (source_docs : List String)
    (category : String) (ts₁ ts₂ : String) :
    evaluate_response_rev question_id question response must_include should_cite
        source_docs category ts₁
      = evaluate_response question_id question response must_include should_cite
          source_docs category ts₁
    ∧ (evaluate_response question_id question response must_include should_cite
        source_docs category ts₁).scoringView
      = (evaluate_response question_id question response must_include should_cite
          source_docs category ts₂).scoringView := by
  constructor
  · simp only [evaluate_response, evaluate_response_rev]
    have h : ∀ x y z : ℚ, z * (1/5) + y * (3/10) + x * (1/2)
        = x * (1/2) + y * (3/10) + z * (1/5) := fun x y z => by ring
    rw [h]
  · rfl

/-- C6 counterexample: re-running the same transcript at a later clock
reading does not yield a bit-identical record — the `timestamp` field
differs, so the two records are unequal. -/
theorem evaluate_response_timestamp_counterexample :
    evaluate_response "q1" "What is the S&P 500 target?" "The target is 6,600."
        ["6,600|6600"] true [] "factual_recall" "2025-03-01T00:00:00"
      ≠ evaluate_response "q1" "What is the S&P 500 target?" "The target is 6,600."
          ["6,600|6600"] true [] "factual_recall" "2025-03-01T00:00:07" := by
  intro h
  have ht : ("2025-03-01T00:00:00" : String) = "2025-03-01T00:00:07" :=
    congrArg EvalRecord.timestamp h
  exact absurd ht (by decide)

/-! ## C1 and C9: the comparator -/

/-- C1: `compare_overall_scores` subtracts the raw averages.  At a judgment
overall average of 4.0 (1-5 scale) against a deterministic average of 0.8
(0-1 scale) the reported difference is 3.2, not the 0 that normalizing
4.0 to 0.8 would give, and the raw-scale winner comparison names the
judgment evaluator. -/
theorem compare_overall_scores_raw_delta_at_example :
    (compare_overall_scores 4 (4/5)).difference = 16/5
    ∧ (compare_overall_scores 4 (4/5)).winner = "llm-judge"
    ∧ (compare_overall_scores 4 (4/5)).difference ≠ |(4 : ℚ)/5 - 4/5| := by
  refine ⟨?_, ?_, ?_⟩
  · show |(4 : ℚ) - 4/5| = 16/5
    norm_num
  · show (if (4 : ℚ) > 4/5 then "llm-judge" else "openai-evals") = "llm-judge"
    norm_num
  · show |(4 : ℚ) - 4/5| ≠ |(4 : ℚ)/5 - 4/5|
    norm_num

/-- C9: every row of the per-category table is the pure entry function of
the two looked-up scores, the declared better evaluator is decided by
strict greater-than of the normalized judgment score over the
deterministic score, and an exact tie always yields the fixed winner
"openai-evals" (the deterministic evaluator). -/
theorem compare_by_category_tiebreak (llm_categories evals_categories : List (String × ℚ)) :
    (∀ p ∈ compare_by_category llm_categories evals_categories,
        p.2 = compare_category_entry ((llm_categories.lookup p.1).getD 0)
          ((evals_categories.lookup p.1).getD 0))
    ∧ (∀ a b : ℚ, (compare_category_entry a b).better_evaluator
        = if (compare_category_entry a b).llm_judge > b then "llm-judge" else "openai-evals")
    ∧ (∀ a b : ℚ, (compare_category_entry a b).llm_judge = b →
        (compare_category_entry a b).better_evaluator = "openai-evals") := by
  refine ⟨?_, fun a b => rfl, fun a b h => ?_⟩
  · intro p hp
    simp only [compare_by_category, List.mem_map] at hp
    obtain ⟨k, _, rfl⟩ := hp
    rfl
  · have hn : (compare_category_entry a b).llm_judge
        = (if a ≠ 0 then a / 5 else 0) := rfl
    show (if (if a ≠ 0 then a / 5 else 0) > b then "llm-judge" else "openai-evals")
      = "openai-evals"
    rw [hn] at h
    rw [h]
    simp

/-- Witness for C9: the spec's tie example — both evaluators at 0.75 on the
0-1 scale (judgment raw score 3.75) — reports the deterministic evaluator. -/
theorem compare_by_category_tiebreak_witness :
    (compare_category_entry (15/4) (3/4)).better_evaluator = "openai-evals" :=
  (compare_by_category_tiebreak [] []).2.2 (15/4) (3/4) (by norm_num [compare_category_entry])

/-! ## C7: error isolation in the judgment evaluator -/

/-- C7: a failed or malformed judgment-service call yields the explicit
error record (overall_score 0, pass false, error field set); prepending an
error-carrying record to a batch changes the summary only by incrementing
`total_failed`, leaving every average, the pass rate and `total_evaluated`
untouched; and the summary statistics are computed from the valid
(error-free) records alone, with `total_evaluated` the valid count and
`total_failed` the complement. -/
theorem llm_judge_error_isolation :
    (∀ question category msg, judge_evaluate_response question category (Except.error msg)
      = { error := some msg, question := question, category := none,
          overall_score := some 0, pass := false, criteria := [] })
    ∧ (∀ (e : JudgeRecord) (evals : List JudgeRecord) (s : JudgeSummary),
        e.error.isSome = true →
        judge_calculate_summary evals = JudgeSummaryOut.stats s →
        judge_calculate_summary (e :: evals) = JudgeSummaryOut.stats
          { s with total_failed := s.total_failed + 1 })
    ∧ (∀ (evals : List JudgeRecord) (s : JudgeSummary),
        judge_calculate_summary evals = JudgeSummaryOut.stats s →
        s.total_evaluated = (judgeValid evals).length
        ∧ s.total_failed = evals.length - (judgeValid evals).length
        ∧ s.pass_rate = (((judgeValid evals).filter (fun e => e.pass)).length : ℚ)
            / ((judgeValid evals).length : ℚ)
        ∧ s.overall_average = pyAvg ((judgeValid evals).filterMap (fun e => e.overall_score))) := by
  refine ⟨fun question category msg => rfl, ?_, ?_⟩
  · intro e evals s he hs
    have hvcons : judgeValid (e :: evals) = judgeValid evals := by
      unfold judgeValid
      rw [List.filter_cons]
      have hno : e.error.isNone = false := by
        rcases h : e.error with _ | v
        · rw [h] at he; simp at he
        · rfl
      simp [hno]
    simp only [judge_calculate_summary] at hs ⊢
    split_ifs at hs with h1 h2
    simp only [JudgeSummaryOut.stats.injEq] at hs
    have hlen : (judgeValid evals).length ≤ evals.length := List.length_filter_le _ _
    have harith : (e :: evals).length - (judgeValid evals).length
        = evals.length - (judgeValid evals).length + 1 := by
      simp only [List.length_cons]
      omega
    rw [if_neg (by simp : ¬(e :: evals).isEmpty = true), hvcons, if_neg h2, harith, ← hs]
  · intro evals s hs
    simp only [judge_calculate_summary] at hs
    split_ifs at hs with h1 h2
    simp only [JudgeSummaryOut.stats.injEq] at hs
    rw [← hs]
    exact ⟨rfl, rfl, rfl, rfl⟩

/-- A record of the error shape, for the C7 witness. -/
def judgeErrRecordEx : JudgeRecord :=
  { error := some "boom", question := "q7", category := none,
    overall_score := some 0, pass := false, criteria := [] }

/-- A valid judge record, for the C7 witness. -/
def judgeValidRecordEx : JudgeRecord :=
  { error := none, question := "q1", category := some "factual_recall",
    overall_score := some 4, pass := true, criteria := [("factual_accuracy", 4)] }

/-- The summary of the one-record valid batch, for the C7 witness. -/
def judgeSummaryEx : JudgeSummary :=
  { criteria_scores := [("factual_accuracy", ⟨4, 4, 4⟩)]
    overall_average := 4
    pass_rate := 1
    total_evaluated := 1
    total_failed := 0
    category_breakdown := [("factual_recall", ⟨1, 1, 4⟩)] }

/-- Concrete evaluation of the judge summary on the one-record batch. -/
theorem judge_summary_ex_eq :
    judge_calculate_summary [judgeValidRecordEx] = JudgeSummaryOut.stats judgeSummaryEx := by
  have hb1 : ("factual_accuracy" == "factual_accuracy") = true := by decide
  have hb2 : ("source_attribution" == "factual_accuracy") = false := by decide
  have hb3 : ("completeness" == "factual_accuracy") = false := by decide
  have hb4 : ("hallucination_detection" == "factual_accuracy") = false := by decide
  have hb5 : ("compliance" == "factual_accuracy") = false := by decide
  simp only [judge_calculate_summary, judgeValid, judgeValidRecordEx, judgeCriteria,
    judgeCriterionStatFor, judgeCatKeys, judgeCatStatFor, pyAvg, judgeSummaryEx,
    List.lookup, List.filter, List.filterMap, List.foldl, hb1, hb2, hb3, hb4, hb5]
  norm_num [List.filterMap_cons, List.filterMap_nil]
  simp

/-- Witness for C7 at a concrete error record and a one-record valid batch. -/
theorem llm_judge_error_isolation_witness :
    judge_evaluate_response "q7" "general" (Except.error "boom")
      = { error := some "boom", question := "q7", category := none,
          overall_score := some 0, pass := false, criteria := [] }
    ∧ judge_calculate_summary [judgeErrRecordEx, judgeValidRecordEx]
      = JudgeSummaryOut.stats
          { judgeSummaryEx with total_failed := judgeSummaryEx.total_failed + 1 } :=
  ⟨llm_judge_error_isolation.1 "q7" "general" "boom",
   llm_judge_error_isolation.2.1 judgeErrRecordEx [judgeValidRecordEx] judgeSummaryEx
     rfl judge_summary_ex_eq⟩

/-! ## C10: skipped graders and the deterministic batch summary -/

/-- C10: the empty batch summarises to the empty mapping; a record whose
keyword (resp. citation) grader was skipped leaves the batch
`avg_keyword_score` (resp. `avg_citation_score`) unchanged, i.e. skipped
graders are excluded from those denominators; yet a record evaluated with
an empty `must_include` list carries keyword score 1 contributing its full
0.5 weight to that record's overall score. -/
theorem calculate_summary_skip_exclusion :
    calculate_summary ([] : List EvalRecord) = none
    ∧ (∀ (r : EvalRecord) (evals : List EvalRecord), r.keyword_check.grader = "skipped" →
        (calculate_summary (r :: evals)).elim 0 (fun s => s.avg_keyword_score)
          = (calculate_summary evals).elim 0 (fun s => s.avg_keyword_score))
    ∧ (∀ (r : EvalRecord) (evals : List EvalRecord), r.citation_check.grader = "skipped" →
        (calculate_summary (r :: evals)).elim 0 (fun s => s.avg_citation_score)
          = (calculate_summary evals).elim 0 (fun s => s.avg_citation_score))
    ∧ (∀ question_id question response should_cite source_docs category timestamp,
        (evaluate_response question_id question response [] should_cite source_docs
            category timestamp).keyword_check.score = 1
        ∧ (evaluate_response question_id question response [] should_cite source_docs
            category timestamp).overall_score
          = 1 * (1/2)
            + (evaluate_response question_id question response [] should_cite source_docs
                category timestamp).citation_check.score * (3/10)
            + (evaluate_response question_id question response [] should_cite source_docs
                category timestamp).compliance_check.score * (1/5)) := by
  refine ⟨rfl, ?_, ?_, fun a b c d e f g => ⟨rfl, rfl⟩⟩
  · intro r evals hr
    cases evals with
    | nil => simp [calculate_summary, List.filter_cons, hr, pyAvg]
    | cons b bs => simp [calculate_summary, List.filter_cons, hr]
  · intro r evals hr
    cases evals with
    | nil => simp [calculate_summary, List.filter_cons, hr, pyAvg]
    | cons b bs => simp [calculate_summary, List.filter_cons, hr]

/-- Witness for C10: a record built from an empty `must_include` list (so
its keyword grader is "skipped") does not move the batch keyword average. -/
theorem calculate_summary_skip_exclusion_witness :
    (calculate_summary [evaluate_response "q0" "Q" "resp" [] true []
        "factual_recall" "2025-03-01T00:00:00"]).elim 0 (fun s => s.avg_keyword_score)
      = (calculate_summary []).elim 0 (fun s => s.avg_keyword_score) :=
  calculate_summary_skip_exclusion.2.1 _ [] rfl

end InvestorAgent
